import Mathlib

/-!
Verification of the tpom repository (Linux vDSO time-function patcher).

The development shallowly embeds the Rust sources:
  * `src/opcodes.rs`  — free-function opcode emitters (namespace `Opcodes`),
  * `src/vdso.rs`     — `vDSO` associated functions: opcode emitters, ELF
    dynamic-symbol enumeration, `overwrite` / `restore` / `read_symbol`
    (namespace `Vdso`),
  * `src/auxv.rs`     — auxiliary-vector reader (namespace `Auxv`),
  * `src/trampolines.rs` / the trampolines in `src/lib.rs` (namespace `Tramp`),
  * `src/lib.rs`      — `curse_vdso` / `mess_vdso` / `overwrite` /
    `lift_curse_vdso` façade (namespace `Lib`).

Machine integers (`u64`/`usize`) are modelled as `Nat`, with byte extraction
written out explicitly; fallible paths (Rust `assert!`, `panic!`,
division by zero) are modelled with `Option` or explicit outcome types.
Strings are modelled as their byte lists (`List Nat`), matching the
byte-wise string handling in `get_str_til_nul`.
-/

/-- Symbol-name byte constants (ASCII), as used by `curse_vdso` in
`src/lib.rs` and by the `.text` comparison in `vDSO::dynsyms`. -/
def n_clock_gettime : List Nat := [99, 108, 111, 99, 107, 95, 103, 101, 116, 116, 105, 109, 101]

/-- ASCII bytes of the name __vdso_clock_gettime. -/
def n_vdso_clock_gettime : List Nat :=
  [95, 95, 118, 100, 115, 111, 95, 99, 108, 111, 99, 107, 95, 103, 101, 116, 116, 105, 109, 101]

/-- ASCII bytes of the name time. -/
def n_time : List Nat := [116, 105, 109, 101]

/-- ASCII bytes of the name __vdso_time. -/
def n_vdso_time : List Nat := [95, 95, 118, 100, 115, 111, 95, 116, 105, 109, 101]

/-- ASCII bytes of the name clock_getres. -/
def n_clock_getres : List Nat := [99, 108, 111, 99, 107, 95, 103, 101, 116, 114, 101, 115]

/-- ASCII bytes of the name __vdso_clock_getres. -/
def n_vdso_clock_getres : List Nat :=
  [95, 95, 118, 100, 115, 111, 95, 99, 108, 111, 99, 107, 95, 103, 101, 116, 114, 101, 115]

/-- ASCII bytes of the name gettimeofday. -/
def n_gettimeofday : List Nat := [103, 101, 116, 116, 105, 109, 101, 111, 102, 100, 97, 121]

/-- ASCII bytes of the name __vdso_gettimeofday. -/
def n_vdso_gettimeofday : List Nat :=
  [95, 95, 118, 100, 115, 111, 95, 103, 101, 116, 116, 105, 109, 101, 111, 102, 100, 97, 121]

/-- ASCII bytes of the section name .text. -/
def n_dot_text : List Nat := [46, 116, 101, 120, 116]

/-- Byte `i` (little-endian position) of a 64-bit machine word, as produced
by Rust `usize::to_le_bytes` / `to_be_bytes` and by the manual
`(x >> (8*i)) & 0xFF` shifts in `src/lib.rs`. -/
def usizeByte (t i : Nat) : Nat := t / 256 ^ i % 256

/-- Model of Rust `usize::to_le_bytes` (8 bytes, least significant first). -/
def to_le_bytes8 (t : Nat) : List Nat :=
  [usizeByte t 0, usizeByte t 1, usizeByte t 2, usizeByte t 3,
   usizeByte t 4, usizeByte t 5, usizeByte t 6, usizeByte t 7]

/-- Model of Rust `usize::to_be_bytes` (8 bytes, most significant first). -/
def to_be_bytes8 (t : Nat) : List Nat :=
  [usizeByte t 7, usizeByte t 6, usizeByte t 5, usizeByte t 4,
   usizeByte t 3, usizeByte t 2, usizeByte t 1, usizeByte t 0]

/-- Model of the `while symbol_len > opcodes.len() { opcodes.append(&mut nop.clone()) }`
loops in the RISC-V and AArch64 emitters.  The NOP instruction is passed as
head byte plus tail bytes so that it is non-empty by construction, which
gives termination. -/
def padLoop (b0 : Nat) (brest : List Nat) (symbol_len : Nat) (opcodes : List Nat) : List Nat :=
  if symbol_len > opcodes.length then
    padLoop b0 brest symbol_len (opcodes ++ (b0 :: brest))
  else
    opcodes
termination_by symbol_len - opcodes.length
decreasing_by
  simp only [List.length_append, List.length_cons]
  omega

namespace Opcodes

/-- Embedding of `_generate_opcodes_riscv64` from `src/opcodes.rs`:
`auipc t0, 0; ld t1, 12(t0); jr t1;` then the 8 little-endian target bytes,
then whole 4-byte NOPs (`13 00 00 00`) until the length reaches `symbol_len`. -/
def _generate_opcodes_riscv64 (jmp_target symbol_len : Nat) : List Nat :=
  let auipc_t0 : List Nat := [0x97, 0x02, 0x00, 0x00]
  let ld_t0_plus12 : List Nat := [0x03, 0xb3, 0xc2, 0x00]
  let jr : List Nat := [0x67, 0x00, 0x03, 0x00]
  let addr_bytes := to_le_bytes8 jmp_target
  padLoop 0x13 [0x0, 0x0, 0x0] symbol_len (auipc_t0 ++ ld_t0_plus12 ++ jr ++ addr_bytes)

/-- Embedding of `_generate_opcodes_aarch64` from `src/opcodes.rs`:
`ldr x0, .+8; br x0;` then the 8 little-endian target bytes, then whole
4-byte NOPs (`1f 20 03 d5`) until the length reaches `symbol_len`. -/
def _generate_opcodes_aarch64 (jmp_target symbol_len : Nat) : List Nat :=
  let addr_bytes := to_le_bytes8 jmp_target
  let ldr_x0_8 : List Nat := [0x40, 0x00, 0x00, 0x58]
  let br_x0 : List Nat := [0x00, 0x00, 0x1f, 0xd6]
  padLoop 0x1f [0x20, 0x03, 0xd5] symbol_len (ldr_x0_8 ++ br_x0 ++ addr_bytes)

/-- Embedding of `_generate_opcodes_x86_64` from `src/opcodes.rs`:
`mov rax, target` (`48 B8` + 8 little-endian bytes), `jmp rax` (`FF E0`),
then single-byte NOPs (`90`).  The Rust `assert!(symbol_len >= opcodes.len())`
(a panic when `symbol_len < 12`) is modelled as `none`. -/
def _generate_opcodes_x86_64 (jmp_target symbol_len : Nat) : Option (List Nat) :=
  let addr_bytes := to_le_bytes8 jmp_target
  let opcodes : List Nat := [0x48, 0xB8] ++ addr_bytes ++ [0xFF, 0xE0]
  if opcodes.length ≤ symbol_len then
    some (opcodes ++ List.replicate (symbol_len - opcodes.length) 0x90)
  else
    none

end Opcodes

namespace Vdso

/-- Embedding of `vDSO::_generate_opcodes_riscv64` from `src/vdso.rs`.
This draft takes `to_be_bytes` and reorders the bytes by hand into
`addr_first_half = [b7, b6, b5, b4]` and `addr_second_half = [b3, b2, b1, b0]`
(indices into the big-endian array). -/
def _generate_opcodes_riscv64 (jmp_target symbol_len : Nat) : List Nat :=
  let auipc_t0 : List Nat := [0x97, 0x02, 0x00, 0x00]
  let ld_t0_plus12 : List Nat := [0x03, 0xb3, 0xc2, 0x00]
  let jr : List Nat := [0x67, 0x00, 0x03, 0x00]
  let addr_bytes := to_be_bytes8 jmp_target
  let addr_first_half : List Nat :=
    [addr_bytes.getD 7 0, addr_bytes.getD 6 0, addr_bytes.getD 5 0, addr_bytes.getD 4 0]
  let addr_second_half : List Nat :=
    [addr_bytes.getD 3 0, addr_bytes.getD 2 0, addr_bytes.getD 1 0, addr_bytes.getD 0 0]
  padLoop 0x13 [0x0, 0x0, 0x0] symbol_len
    (auipc_t0 ++ ld_t0_plus12 ++ jr ++ addr_first_half ++ addr_second_half)

/-- Embedding of `vDSO::_generate_opcodes_aarch64` from `src/vdso.rs`.
This draft takes `to_be_bytes` and reverses all eight bytes by hand. -/
def _generate_opcodes_aarch64 (jmp_target symbol_len : Nat) : List Nat :=
  let _a_bytes := to_be_bytes8 jmp_target
  let addr_bytes : List Nat :=
    [_a_bytes.getD 7 0, _a_bytes.getD 6 0, _a_bytes.getD 5 0, _a_bytes.getD 4 0,
     _a_bytes.getD 3 0, _a_bytes.getD 2 0, _a_bytes.getD 1 0, _a_bytes.getD 0 0]
  let ldr_x0_8 : List Nat := [0x40, 0x00, 0x00, 0x58]
  let br_x0 : List Nat := [0x00, 0x00, 0x1f, 0xd6]
  padLoop 0x1f [0x20, 0x03, 0xd5] symbol_len (ldr_x0_8 ++ br_x0 ++ addr_bytes)

/-- Embedding of `vDSO::_generate_opcodes_x86_64` from `src/vdso.rs`
(textually the same algorithm as the free function in `src/opcodes.rs`). -/
def _generate_opcodes_x86_64 (jmp_target symbol_len : Nat) : Option (List Nat) :=
  let addr_bytes := to_le_bytes8 jmp_target
  let opcodes : List Nat := [0x48, 0xB8] ++ addr_bytes ++ [0xFF, 0xE0]
  if opcodes.length ≤ symbol_len then
    some (opcodes ++ List.replicate (symbol_len - opcodes.length) 0x90)
  else
    none

end Vdso

/-- Byte-wise memory write: model of the
`for (i, b) in opcodes.iter().enumerate() { std::ptr::write_bytes(dst + i, b, 1) }`
loops in `vDSO::overwrite` / `vDSO::restore`, and of the byte stores in the
`overwrite` free function of `src/lib.rs`.  Memory is the byte list of the
mapped region; stores beyond its end fall outside the model (`List.set` is
then a no-op) and never occur in the concrete runs below. -/
def writeBytes : List Nat → Nat → List Nat → List Nat
  | mem, _, [] => mem
  | mem, addr, b :: bs => writeBytes (mem.set addr b) (addr + 1) bs

/-- Host architectures supported by the `cfg(target_arch)`-selected
`generate_opcodes` wrappers. -/
inductive Arch
  | riscv64
  | aarch64
  | x86_64
deriving DecidableEq

namespace Vdso

/-- Embedding of the `cfg(target_arch = ...)`-selected `vDSO::generate_opcodes`
from `src/vdso.rs`; the RISC-V and AArch64 generators have no failure path,
the x86-64 generator panics (`none`) on lengths below 12. -/
def generate_opcodes (arch : Arch) (jmp_target symbol_len : Nat) : Option (List Nat) :=
  match arch with
  | Arch.riscv64 => some (_generate_opcodes_riscv64 jmp_target symbol_len)
  | Arch.aarch64 => some (_generate_opcodes_aarch64 jmp_target symbol_len)
  | Arch.x86_64 => _generate_opcodes_x86_64 jmp_target symbol_len

/-- Embedding of `vDSO::overwrite` from `src/vdso.rs`: generate the jump-stub
opcodes for `(jmp_address, symbol_size)` and write them byte-by-byte at
`elf_offset + symbol_address`. -/
def overwrite (arch : Arch) (mem : List Nat) (elf_offset symbol_address jmp_address : Nat)
    (symbol_size : Nat) : Option (List Nat) :=
  let dst_addr := elf_offset + symbol_address
  (generate_opcodes arch jmp_address symbol_size).map (fun opcodes =>
    writeBytes mem dst_addr opcodes)

/-- Embedding of `vDSO::restore` from `src/vdso.rs`: write the given captured
bytes back byte-by-byte at `elf_offset + symbol_address`. -/
def restore (mem : List Nat) (elf_offset symbol_address : Nat) (opcodes : List Nat) : List Nat :=
  let dst_addr := elf_offset + symbol_address
  writeBytes mem dst_addr opcodes

/-- Embedding of `vDSO::read_symbol` from `src/vdso.rs`.  The source function
ignores all three arguments and returns `vec![]` — it is a stub. -/
def read_symbol (elf_offset symbol_address len : Nat) : List Nat := []

end Vdso

/-- Model of one goblin ELF section header, restricted to the fields
`vDSO::dynsyms` reads. -/
structure SectionHeader where
  sh_name : Nat
  sh_type : Nat
  sh_addralign : Nat
  sh_addr : Nat
  sh_offset : Nat

/-- Model of one goblin dynamic-symbol-table entry, restricted to the fields
the repository reads. -/
structure ElfSym where
  st_name : Nat
  st_value : Nat
  st_size : Nat

/-- Model of a goblin `Elf` parse result as consumed by `vDSO::dynsyms`.
The string tables are modelled as total maps from a byte offset to the byte
string goblin's `get_at` returns there (ELF parsing itself is done by the
external goblin crate, so the parsed representation is the embedding
boundary). -/
structure ParsedElf where
  section_headers : List SectionHeader
  shdr_strtab : Nat → List Nat
  dynsyms : List ElfSym
  dynstrtab : Nat → List Nat

/-- Result row of `vDSO::dynsyms` (`struct DynSym` in `src/vdso.rs`); the
name is kept as its byte string. -/
structure DynSym where
  name : List Nat
  address : Nat
  size : Nat
deriving DecidableEq

/-- Value of `goblin::elf::section_header::SHT_PROGBITS`. -/
def SHT_PROGBITS : Nat := 1

/-- Embedding of `get_str_til_nul` (identical in `src/vdso.rs` and
`src/lib.rs`): take the bytes of the string-table entry up to the first NUL. -/
def get_str_til_nul (s : Nat → List Nat) (at0 : Nat) : List Nat :=
  (s at0).takeWhile (fun c => c ≠ 0)

/-- Embedding of the section-header loop of `vDSO::dynsyms`: starting from
`align = 0, base = 0`, every PROGBITS section named `.text` overwrites
`align := sh_addralign` and `base := sh_addr - sh_offset`. -/
def textAlignBase (e : ParsedElf) : Nat × Nat :=
  e.section_headers.foldl
    (fun ab h =>
      if h.sh_type = SHT_PROGBITS ∧ get_str_til_nul e.shdr_strtab h.sh_name = n_dot_text then
        (h.sh_addralign, h.sh_addr - h.sh_offset)
      else ab)
    (0, 0)

/-- Size rounding of `vDSO::dynsyms`: `st_size` if it is a multiple of
`align`, otherwise `st_size + (align - st_size % align)`. -/
def alignedSize (st_size align : Nat) : Nat :=
  if st_size % align = 0 then st_size else st_size + (align - st_size % align)

/-- Symbol loop of `vDSO::dynsyms`: entries with `st_value == 0` are skipped;
for the rest the name is read from the dynamic string table, the address is
`st_value - base` and the size is the alignment-rounded `st_size`.  In Rust,
`st_size % align` with `align == 0` panics (division by zero); that path is
modelled as `none`. -/
def dynsymsGo (align base : Nat) (dynstrtab : Nat → List Nat) : List ElfSym → Option (List DynSym)
  | [] => some []
  | ds :: rest =>
    if ds.st_value = 0 then
      dynsymsGo align base dynstrtab rest
    else if align = 0 then
      none
    else
      (dynsymsGo align base dynstrtab rest).map (fun tl =>
        { name := get_str_til_nul dynstrtab ds.st_name
          address := ds.st_value - base
          size := alignedSize ds.st_size align } :: tl)

/-- Embedding of `vDSO::dynsyms` from `src/vdso.rs`. -/
def dynsyms (e : ParsedElf) : Option (List DynSym) :=
  let ab := textAlignBase e
  dynsymsGo ab.1 ab.2 e.dynstrtab e.dynsyms

namespace Auxv

/-- Value of `libc::AT_NULL`. -/
def AT_NULL : Nat := 0

/-- Value of `libc::AT_PAGESZ`. -/
def AT_PAGESZ : Nat := 6

/-- Value of `libc::AT_SYSINFO_EHDR`. -/
def AT_SYSINFO_EHDR : Nat := 33

/-- Model of `struct AuxVecValues` from `src/auxv.rs`. -/
structure AuxVecValues where
  vdso_base : Nat
  page_size : Nat
deriving DecidableEq

/-- Possible outcomes of `read_aux_vec`.  The Rust signature is
`Result<AuxVecValues, Box<dyn Error>>`, so `err` models returning an `Err`
value to the caller; `aborted` models the `panic!` (message wtf) in the body. -/
inductive AuxvOutcome
  | ok (v : AuxVecValues)
  | err
  | aborted
deriving DecidableEq

/-- Embedding of the `while *out != AT_NULL` loop of `read_aux_vec`: walk the
`(key, value)` pairs up to the terminator key, recording the last values seen
for `AT_SYSINFO_EHDR` and `AT_PAGESZ` into `(ptr, pagesize)`. -/
def auxvLoop : List (Nat × Nat) → Nat → Nat → Nat × Nat
  | [], ptr, pagesize => (ptr, pagesize)
  | (key, val) :: rest, ptr, pagesize =>
    if key = AT_NULL then (ptr, pagesize)
    else
      auxvLoop rest (if key = AT_SYSINFO_EHDR then val else ptr)
        (if key = AT_PAGESZ then val else pagesize)

/-- Embedding of `read_aux_vec` from `src/auxv.rs`, over the auxiliary-vector
pairs found past the environment block.  After the walk, the source checks
`if ptr == 0 || pagesize == 0 { panic!(..) }` and otherwise returns `Ok`. -/
def read_aux_vec (entries : List (Nat × Nat)) : AuxvOutcome :=
  let r := auxvLoop entries 0 0
  if r.1 = 0 ∨ r.2 = 0 then AuxvOutcome.aborted
  else AuxvOutcome.ok { vdso_base := r.1, page_size := r.2 }

end Auxv

namespace Tramp

/-- Model of `TimeSpec` (callback return value for clock_gettime / clock_getres). -/
structure TimeSpecV where
  seconds : Int
  nanos : Int

/-- Model of `TimeVal` (callback return value for gettimeofday). -/
structure TimeValV where
  seconds : Int
  micros : Int

/-- Outcome of the `my_time` trampoline: the C return value together with what
was stored through the out-pointer (`none` when the pointer was null), or an
abort from `unwrap()` on an empty callback slot. -/
inductive TimeOutcome
  | ok (ret : Int) (written : Option Int)
  | aborted

/-- Outcome of the `my_clockgettime` / `my_clockgetres` trampolines: C return
value plus the `timespec` stored through the out-pointer, or an abort. -/
inductive GetTimeOutcome
  | ok (ret : Nat) (written : Option TimeSpecV)
  | aborted

/-- Outcome of the `my_gettimeofday` trampoline (returns void): the `timeval`
stored through the out-pointer, or an abort. -/
inductive GtodOutcome
  | ok (written : Option TimeValV)
  | aborted

/-- Embedding of `my_time` from `src/trampolines.rs` (same body in
`src/lib.rs`): read the slot unconditionally (`unwrap` aborts on `None`),
store through the pointer only when it is non-null, return the result. -/
def my_time (slot : Option (Unit → Int)) (t_is_null : Bool) : TimeOutcome :=
  match slot with
  | none => TimeOutcome.aborted
  | some cb =>
    let res := cb ()
    TimeOutcome.ok res (if t_is_null then none else some res)

/-- Embedding of `my_clockgettime` from `src/trampolines.rs`: the slot is read
only inside `if !ts.is_null()`; the function always returns 0 when it returns. -/
def my_clockgettime (slot : Option (Int → TimeSpecV)) (clockid : Int) (ts_is_null : Bool) :
    GetTimeOutcome :=
  if ts_is_null then GetTimeOutcome.ok 0 none
  else
    match slot with
    | none => GetTimeOutcome.aborted
    | some cb => GetTimeOutcome.ok 0 (some (cb clockid))

/-- Embedding of `my_clockgetres` from `src/trampolines.rs` (same shape as
`my_clockgettime`, reading the clock_getres slot). -/
def my_clockgetres (slot : Option (Int → TimeSpecV)) (clockid : Int) (ts_is_null : Bool) :
    GetTimeOutcome :=
  if ts_is_null then GetTimeOutcome.ok 0 none
  else
    match slot with
    | none => GetTimeOutcome.aborted
    | some cb => GetTimeOutcome.ok 0 (some (cb clockid))

/-- Embedding of `my_gettimeofday` from `src/trampolines.rs`: the slot is read
only inside `if !tp.is_null()`; the time-zone argument is ignored by the source
and omitted here. -/
def my_gettimeofday (slot : Option (Unit → TimeValV)) (tp_is_null : Bool) : GtodOutcome :=
  if tp_is_null then GtodOutcome.ok none
  else
    match slot with
    | none => GtodOutcome.aborted
    | some cb => GtodOutcome.ok (some (cb ()))

end Tramp

namespace Lib

/-- Page protection of the vDSO mapping (`PROT_READ|PROT_EXEC` vs
`PROT_READ|PROT_WRITE|PROT_EXEC`).  The `writable` flag parsed from
`/proc/self/maps` is `true` exactly for `RWX`. -/
inductive Prot
  | RX
  | RWX
deriving DecidableEq

/-- Which of the four static callback slots (`CLOCK_GT_CB`, `TIME_CB`,
`CLOCK_RES_CB`, `CLOCK_GTOD_CB`) are populated. -/
structure SlotFlags where
  clock_gt : Bool
  time_slot : Bool
  clock_res : Bool
  gtod : Bool
deriving DecidableEq

/-- Process state touched by the `src/lib.rs` façade: the bytes of the live
vDSO mapping (indexed from `range.start`, so offset 0 is the mapping base),
its protection, the `BACKUP_VDSO` buffer and the callback slots. -/
structure ProcState where
  mem : List Nat
  prot : Prot
  backup : List Nat
  slots : SlotFlags
deriving DecidableEq

/-- Bytes stored by the `overwrite` free function of `src/lib.rs`
(lines 275-290): `48 B8`, the eight bytes of `dst_address` extracted with
`(dst_address >> 8*i) & 0xFF`, `FF E0`, then
`std::cmp::max(16, size) - 12` NOP bytes `90`. -/
def overwritten_bytes (dst_address size : Nat) : List Nat :=
  [0x48, 0xB8,
   usizeByte dst_address 0, usizeByte dst_address 1,
   usizeByte dst_address 2, usizeByte dst_address 3,
   usizeByte dst_address 4, usizeByte dst_address 5,
   usizeByte dst_address 6, usizeByte dst_address 7,
   0xFF, 0xE0] ++ List.replicate (max 16 size - 12) 0x90

/-- Embedding of the `overwrite` free function of `src/lib.rs`: store
`overwritten_bytes` at `range.start + address` (the model's memory starts at
`range.start`, passed here as `range_start`). -/
def overwrite (mem : List Nat) (range_start address dst_address size : Nat) : List Nat :=
  writeBytes mem (range_start + address) (overwritten_bytes dst_address size)

/-- Model of one goblin program header, restricted to the fields
`mess_vdso` reads. -/
structure ProgramHeader where
  p_type : Nat
  p_vaddr : Nat

/-- Model of the goblin parse result as consumed by `mess_vdso` in
`src/lib.rs`. -/
structure LibElf where
  program_headers : List ProgramHeader
  dynsyms : List ElfSym
  dynstrtab : Nat → List Nat

/-- Lookup in the name-to-trampoline-address mapping (`HashMap::get`). -/
def mapGet : List (List Nat × Nat) → List Nat → Option Nat
  | [], _ => none
  | p :: rest, k => if p.1 = k then some p.2 else mapGet rest k

/-- Embedding of the mapping built by `curse_vdso` (lines 190-218 of
`src/lib.rs`): for each provided callback, both the non-prefixed and the
`__vdso_`-prefixed symbol name are inserted, mapped to the address of the
corresponding trampoline. -/
def curse_mapping (has_gt has_time has_res has_gtod : Bool)
    (addr_gt addr_time addr_res addr_gtod : Nat) : List (List Nat × Nat) :=
  (if has_gt then [(n_clock_gettime, addr_gt), (n_vdso_clock_gettime, addr_gt)] else []) ++
    (if has_time then [(n_time, addr_time), (n_vdso_time, addr_time)] else []) ++
    (if has_res then [(n_clock_getres, addr_res), (n_vdso_clock_getres, addr_res)] else []) ++
    (if has_gtod then [(n_gettimeofday, addr_gtod), (n_vdso_gettimeofday, addr_gtod)] else [])

/-- Embedding of the `for s in r.program_headers` loop of `mess_vdso`: the
last `PT_DYNAMIC` (`p_type == 2`) header's `p_vaddr`, starting from 0. -/
def pt_dynamic_vaddr (phs : List ProgramHeader) : Nat :=
  phs.foldl (fun va s => if s.p_type = 2 then s.p_vaddr else va) 0

/-- Embedding of the `for ds in &r.dynsyms` loop of `mess_vdso`: each symbol
whose NUL-truncated name is in the mapping is overwritten at `st_value` with a
stub to the mapped trampoline address, using the symbol's raw `st_size`. -/
def mess_go (range_start : Nat) (dynstrtab : Nat → List Nat) (mapping : List (List Nat × Nat)) :
    List ElfSym → List Nat → List Nat
  | [], mem => mem
  | ds :: rest, mem =>
    match mapGet mapping (get_str_til_nul dynstrtab ds.st_name) with
    | some dst_addr =>
      mess_go range_start dynstrtab mapping rest
        (overwrite mem range_start ds.st_value dst_addr ds.st_size)
    | none => mess_go range_start dynstrtab mapping rest mem

/-- Embedding of `mess_vdso` from `src/lib.rs`.  The
`assert_ne!(va, 0)` on the `PT_DYNAMIC` virtual address (a panic when it
fails) is modelled as `none`. -/
def mess_vdso (mem : List Nat) (range_start : Nat) (elf : LibElf)
    (mapping : List (List Nat × Nat)) : Option (List Nat) :=
  if pt_dynamic_vaddr elf.program_headers = 0 then none
  else some (mess_go range_start elf.dynstrtab mapping elf.dynsyms mem)

/-- Embedding of `curse_vdso` from `src/lib.rs`: install the provided
callbacks into their slots and build the name mapping, `mprotect` the mapping
to RWX, snapshot the whole mapping into `BACKUP_VDSO`, then patch via
`mess_vdso`.  The protection is not changed again before returning. -/
def curse_vdso (s : ProcState) (elf : LibElf) (has_gt has_time has_res has_gtod : Bool)
    (addr_gt addr_time addr_res addr_gtod : Nat) : Option ProcState :=
  let mapping := curse_mapping has_gt has_time has_res has_gtod
    addr_gt addr_time addr_res addr_gtod
  let slots : SlotFlags :=
    { clock_gt := if has_gt then true else s.slots.clock_gt
      time_slot := if has_time then true else s.slots.time_slot
      clock_res := if has_res then true else s.slots.clock_res
      gtod := if has_gtod then true else s.slots.gtod }
  let s1 : ProcState := { s with slots := slots, prot := Prot.RWX }
  let b := s1.mem
  let s2 : ProcState := { s1 with backup := b }
  (mess_vdso s2.mem 0 elf mapping).map (fun m => { s2 with mem := m })

/-- Embedding of `lift_curse_vdso` from `src/lib.rs`: return immediately when
the mapping is not writable or the backup is empty; otherwise copy the backup
back over the mapping base and `mprotect` back to RX. -/
def lift_curse_vdso (s : ProcState) : ProcState :=
  if s.prot = Prot.RX then s
  else if s.backup = [] then s
  else { s with mem := writeBytes s.mem 0 s.backup, prot := Prot.RX }

end Lib

/-- Rounding a size up to a non-zero alignment yields a multiple of that
alignment. -/
theorem alignedSize_emod (s A : Nat) (hA : A ≠ 0) : alignedSize s A % A = 0 := by
  unfold alignedSize
  by_cases h : s % A = 0
  · simp [h]
  · simp only [h, if_false]
    have hd : A * (s / A) + s % A = s := Nat.div_add_mod s A
    have hlt : s % A < A := Nat.mod_lt _ (Nat.pos_of_ne_zero hA)
    have he : s + (A - s % A) = A * (s / A + 1) := by
      rw [Nat.mul_add, Nat.mul_one]
      omega
    rw [he, Nat.mul_mod_right]

/-- Closed form of the symbol loop of `vDSO::dynsyms` for non-zero alignment:
one output row per input entry with non-zero `st_value`. -/
theorem dynsymsGo_eq (align base : Nat) (strtab : Nat → List Nat) (l : List ElfSym)
    (hA : align ≠ 0) :
    dynsymsGo align base strtab l =
      some ((l.filter (fun ds => ds.st_value ≠ 0)).map (fun ds =>
        { name := get_str_til_nul strtab ds.st_name
          address := ds.st_value - base
          size := alignedSize ds.st_size align })) := by
  induction l with
  | nil => rfl
  | cons ds rest ih =>
    by_cases h : ds.st_value = 0
    · simp [dynsymsGo, h, ih]
    · simp [dynsymsGo, h, hA, ih]

/-- C10: the free-function opcode generators in `src/opcodes.rs` and the
`vDSO` associated generators in `src/vdso.rs` compute identical byte
sequences for every jump target and requested length on each of the three
architectures, although one draft assembles the address bytes with
`to_le_bytes` and the other reverses `to_be_bytes` by hand. -/
theorem claim_C10_opcode_drafts_equal (t L : Nat) :
    Vdso._generate_opcodes_riscv64 t L = Opcodes._generate_opcodes_riscv64 t L ∧
    Vdso._generate_opcodes_aarch64 t L = Opcodes._generate_opcodes_aarch64 t L ∧
    Vdso._generate_opcodes_x86_64 t L = Opcodes._generate_opcodes_x86_64 t L := by
  refine ⟨?_, ?_, rfl⟩
  · simp [Vdso._generate_opcodes_riscv64, Opcodes._generate_opcodes_riscv64,
      to_be_bytes8, to_le_bytes8, List.getD]
  · simp [Vdso._generate_opcodes_aarch64, Opcodes._generate_opcodes_aarch64,
      to_be_bytes8, to_le_bytes8, List.getD]

/-- C3: for every 64-bit target and every requested length of at least 12,
the x86-64 emitter returns `48 B8`, the eight little-endian target bytes,
`FF E0`, and `L - 12` NOP bytes `90`, and the output length is at least `L`. -/
theorem claim_C3_x86_emitter (t L : Nat) (ht : t < 2 ^ 64) (hL : 12 ≤ L) :
    Opcodes._generate_opcodes_x86_64 t L =
      some ([0x48, 0xB8] ++ to_le_bytes8 t ++ [0xFF, 0xE0] ++ List.replicate (L - 12) 0x90) ∧
    L ≤ ([0x48, 0xB8] ++ to_le_bytes8 t ++ [0xFF, 0xE0] ++ List.replicate (L - 12) 0x90).length := by
  constructor
  · simp [Opcodes._generate_opcodes_x86_64, to_le_bytes8, hL]
  · simp [to_le_bytes8]
    omega

/-- Witness for C3 at the spec's test vector `T = 0x12ff34ff56ff78ff`, `L = 16`. -/
theorem claim_C3_x86_emitter_witness :
    Opcodes._generate_opcodes_x86_64 0x12ff34ff56ff78ff 16 =
      some ([0x48, 0xB8] ++ to_le_bytes8 0x12ff34ff56ff78ff ++ [0xFF, 0xE0] ++
        List.replicate 4 0x90) ∧
    16 ≤ ([0x48, 0xB8] ++ to_le_bytes8 0x12ff34ff56ff78ff ++ [0xFF, 0xE0] ++
        List.replicate 4 0x90).length :=
  claim_C3_x86_emitter 0x12ff34ff56ff78ff 16 (by decide) (by decide)

/-- C4 counterexample: the AArch64 emitter does not reject a requested length
of 12 — it returns the 16-byte stub (the repository's own
`test_generate_aarch64_opcodes_no_padding` expects exactly this). -/
theorem claim_C4_counterexample :
    Opcodes._generate_opcodes_aarch64 0x12ff34ff56ff78ff 12 =
      [0x40, 0x00, 0x00, 0x58, 0x00, 0x00, 0x1f, 0xd6,
       0xff, 0x78, 0xff, 0x56, 0xff, 0x34, 0xff, 0x12] := by
  simp [Opcodes._generate_opcodes_aarch64, padLoop, to_le_bytes8, usizeByte]

/-- C4 amended: only the x86-64 emitter fails (panics) on lengths below its
12-byte minimum; the AArch64 and RISC-V emitters have no failure path and for
any requested length up to their stub size return exactly the bare 16-byte or
20-byte stub. -/
theorem claim_C4_amended (t L : Nat) :
    (L < 12 → Opcodes._generate_opcodes_x86_64 t L = none) ∧
    (L ≤ 16 → Opcodes._generate_opcodes_aarch64 t L =
      [0x40, 0x00, 0x00, 0x58, 0x00, 0x00, 0x1f, 0xd6] ++ to_le_bytes8 t) ∧
    (L ≤ 20 → Opcodes._generate_opcodes_riscv64 t L =
      [0x97, 0x02, 0x00, 0x00, 0x03, 0xb3, 0xc2, 0x00, 0x67, 0x00, 0x03, 0x00] ++
        to_le_bytes8 t) := by
  refine ⟨fun h => ?_, fun h => ?_, fun h => ?_⟩
  · simp [Opcodes._generate_opcodes_x86_64, to_le_bytes8]
    omega
  · rw [Opcodes._generate_opcodes_aarch64, padLoop, if_neg]
    · simp
    · simp only [List.length_append, to_le_bytes8, List.length_cons, List.length_nil]
      omega
  · rw [Opcodes._generate_opcodes_riscv64, padLoop, if_neg]
    · simp
    · simp only [List.length_append, to_le_bytes8, List.length_cons, List.length_nil]
      omega

/-- C1: the `entry(kind).overwrite(cb)` / `restore()` round trip is supposed
to leave the symbol's padded region byte-equal to its pre-patch bytes, the
Handle capturing them via `vDSO::read_symbol` — but `read_symbol` in
`src/vdso.rs` is a stub returning the empty vector, so `restore` writes
nothing back and the patched bytes remain.  Shown here on a 32-byte memory
with the symbol slot at offsets 16..32 patched by `vDSO::overwrite`. -/
theorem claim_C1_roundtrip_fails_on_stub :
    Vdso.read_symbol 0 16 16 = [] ∧
    (Vdso.overwrite Arch.x86_64 (List.range 32) 0 16 0x1000 16).map
        (fun m1 => ((Vdso.restore m1 0 16 (Vdso.read_symbol 0 16 16)).drop 16).take 16) ≠
      some (((List.range 32).drop 16).take 16) := by
  decide

/-- C5: for any parse result whose `.text` alignment is non-zero,
`vDSO::dynsyms` emits exactly one row per dynamic-symbol entry with non-zero
`st_value` (zero-value entries are discarded), with the NUL-truncated name
from the dynamic string table, offset `st_value - (sh_addr - sh_offset)` and
size `st_size` rounded up to the alignment; consequently every emitted size is
a multiple of the alignment. -/
theorem claim_C5_dynsyms (e : ParsedElf) (align base : Nat)
    (hab : textAlignBase e = (align, base)) (hA : align ≠ 0) :
    dynsyms e =
      some ((e.dynsyms.filter (fun ds => ds.st_value ≠ 0)).map (fun ds =>
        { name := get_str_til_nul e.dynstrtab ds.st_name
          address := ds.st_value - base
          size := alignedSize ds.st_size align })) ∧
    ∀ l, dynsyms e = some l → ∀ d ∈ l, d.size % align = 0 := by
  have h1 : dynsyms e =
      some ((e.dynsyms.filter (fun ds => ds.st_value ≠ 0)).map (fun ds =>
        { name := get_str_til_nul e.dynstrtab ds.st_name
          address := ds.st_value - base
          size := alignedSize ds.st_size align })) := by
    unfold dynsyms
    rw [hab]
    exact dynsymsGo_eq align base e.dynstrtab e.dynsyms hA
  refine ⟨h1, fun l hl d hd => ?_⟩
  rw [h1] at hl
  have hl2 := Option.some_injective _ hl
  subst hl2
  obtain ⟨ds, _, rfl⟩ := List.mem_map.mp hd
  exact alignedSize_emod ds.st_size align hA

/-- Concrete ELF parse result used to witness C5: a `.text` section with
alignment 16 and load base `4096 - 1024 = 3072`, and three dynamic symbols of
which the zero-value one is discarded. -/
def sampleParsedElf : ParsedElf :=
  { section_headers := [⟨9, 3, 1, 0, 0⟩, ⟨5, 1, 16, 4096, 1024⟩]
    shdr_strtab := fun n => if n = 5 then n_dot_text else [0]
    dynsyms := [⟨0, 6160, 5⟩, ⟨21, 0, 7⟩, ⟨14, 6176, 92⟩]
    dynstrtab := fun n => if n = 0 then n_clock_gettime else
      if n = 14 then n_vdso_time else [] }

/-- Witness for C5 on `sampleParsedElf`. -/
theorem claim_C5_dynsyms_witness :
    dynsyms sampleParsedElf =
      some ((sampleParsedElf.dynsyms.filter (fun ds => ds.st_value ≠ 0)).map (fun ds =>
        { name := get_str_til_nul sampleParsedElf.dynstrtab ds.st_name
          address := ds.st_value - 3072
          size := alignedSize ds.st_size 16 })) ∧
    ∀ l, dynsyms sampleParsedElf = some l → ∀ d ∈ l, d.size % 16 = 0 :=
  claim_C5_dynsyms sampleParsedElf 16 3072 (by decide) (by decide)

/-- C6 counterexample: with a page-size entry but a zero (absent) vDSO header
address, `read_aux_vec` panics (Rust `panic!`, modelled `aborted`) instead of
returning a typed error value to the caller. -/
theorem claim_C6_counterexample :
    Auxv.read_aux_vec [(Auxv.AT_PAGESZ, 4096), (Auxv.AT_NULL, 0)] =
      Auxv.AuxvOutcome.aborted ∧
    Auxv.AuxvOutcome.aborted ≠ Auxv.AuxvOutcome.err := by
  decide

/-- C6 amended: the reader records the vDSO header address and the page size;
when either recorded value is zero it panics (aborting the process) rather
than returning a typed error, and it never returns an `Err` value at all; on
success both returned values are the recorded, non-zero ones. -/
theorem claim_C6_amended (entries : List (Nat × Nat)) :
    Auxv.read_aux_vec entries ≠ Auxv.AuxvOutcome.err ∧
    (Auxv.read_aux_vec entries = Auxv.AuxvOutcome.aborted ↔
      (Auxv.auxvLoop entries 0 0).1 = 0 ∨ (Auxv.auxvLoop entries 0 0).2 = 0) ∧
    (∀ v, Auxv.read_aux_vec entries = Auxv.AuxvOutcome.ok v →
      v.vdso_base = (Auxv.auxvLoop entries 0 0).1 ∧
      v.page_size = (Auxv.auxvLoop entries 0 0).2 ∧
      v.vdso_base ≠ 0 ∧ v.page_size ≠ 0) := by
  unfold Auxv.read_aux_vec
  by_cases h : (Auxv.auxvLoop entries 0 0).1 = 0 ∨ (Auxv.auxvLoop entries 0 0).2 = 0
  · simp [h]
  · simp [h]
    omega

/-- Witness for the amended C6 on a concrete auxiliary vector. -/
theorem claim_C6_amended_witness :
    Auxv.read_aux_vec [(33, 7), (6, 4096), (0, 0)] ≠ Auxv.AuxvOutcome.err ∧
    (Auxv.AuxVecValues.mk 7 4096).vdso_base ≠ 0 ∧
    (Auxv.AuxVecValues.mk 7 4096).page_size ≠ 0 :=
  ⟨(claim_C6_amended [(33, 7), (6, 4096), (0, 0)]).1,
   (((claim_C6_amended [(33, 7), (6, 4096), (0, 0)]).2.2 ⟨7, 4096⟩ (by decide)).2.2)⟩

/-- Witness for the amended C4 at concrete lengths 11, 12 and 12. -/
theorem claim_C4_amended_witness :
    Opcodes._generate_opcodes_x86_64 0x12ff34ff56ff78ff 11 = none ∧
    Opcodes._generate_opcodes_aarch64 0x12ff34ff56ff78ff 12 =
      [0x40, 0x00, 0x00, 0x58, 0x00, 0x00, 0x1f, 0xd6] ++
        to_le_bytes8 0x12ff34ff56ff78ff ∧
    Opcodes._generate_opcodes_riscv64 0x12ff34ff56ff78ff 12 =
      [0x97, 0x02, 0x00, 0x00, 0x03, 0xb3, 0xc2, 0x00, 0x67, 0x00, 0x03, 0x00] ++
        to_le_bytes8 0x12ff34ff56ff78ff :=
  ⟨(claim_C4_amended 0x12ff34ff56ff78ff 11).1 (by decide),
   (claim_C4_amended 0x12ff34ff56ff78ff 12).2.1 (by decide),
   (claim_C4_amended 0x12ff34ff56ff78ff 12).2.2 (by decide)⟩

/-- Concrete goblin parse result for the `src/lib.rs` façade runs: one
`PT_DYNAMIC` program header and a single dynamic symbol, named
`clock_gettime` (the non-prefixed alias), at offset 16 with natural size 16. -/
def sampleLibElf : Lib.LibElf :=
  { program_headers := [⟨1, 0⟩, ⟨2, 0x40⟩]
    dynsyms := [⟨0, 16, 16⟩]
    dynstrtab := fun n => if n = 0 then n_clock_gettime else [] }

/-- Concrete initial process state: a 48-byte RX mapping of 7-bytes, empty
backup, no callback installed. -/
def sampleProcState : Lib.ProcState :=
  { mem := List.replicate 48 7
    prot := Lib.Prot.RX
    backup := []
    slots := ⟨false, false, false, false⟩ }

/-- C2 counterexample: a successful `curse_vdso` run (the overwrite
operation of `src/lib.rs`) ends with the vDSO mapping still RWX — the
protection is never set back to RX before returning. -/
theorem claim_C2_counterexample :
    (Lib.curse_vdso sampleProcState sampleLibElf true false false false 0x1234 0 0 0).map
        (fun s => s.prot) = some Lib.Prot.RWX ∧
    Lib.Prot.RWX ≠ Lib.Prot.RX := by
  decide

/-- C2 amended: every successful `curse_vdso` leaves the mapping RWX
(writable); RX is restored only by `lift_curse_vdso`, which does so whenever
the mapping is writable and a backup exists. -/
theorem claim_C2_amended (s s2 : Lib.ProcState) (elf : Lib.LibElf)
    (g t r go : Bool) (a1 a2 a3 a4 : Nat)
    (h : Lib.curse_vdso s elf g t r go a1 a2 a3 a4 = some s2) :
    s2.prot = Lib.Prot.RWX ∧
    (s2.backup ≠ [] → (Lib.lift_curse_vdso s2).prot = Lib.Prot.RX) := by
  simp only [Lib.curse_vdso] at h
  obtain ⟨m, hm, rfl⟩ := Option.map_eq_some'.mp h
  refine ⟨rfl, fun hb => ?_⟩
  simp only [Lib.lift_curse_vdso]
  rw [if_neg (by simp), if_neg (by simpa using hb)]

/-- Witness for the amended C2 on the concrete state and ELF above. -/
theorem claim_C2_amended_witness :
    (Lib.curse_vdso sampleProcState sampleLibElf true false false false 0x1234 0 0 0).map
        (fun s2 => (s2.prot, (Lib.lift_curse_vdso s2).prot)) =
      some (Lib.Prot.RWX, Lib.Prot.RX) := by
  rcases h : Lib.curse_vdso sampleProcState sampleLibElf true false false false 0x1234 0 0 0
    with _ | s2
  · exact absurd h (by decide)
  · have hth := claim_C2_amended sampleProcState s2 sampleLibElf true false false false
      0x1234 0 0 0 h
    have hb2 : (Lib.curse_vdso sampleProcState sampleLibElf true false false false
        0x1234 0 0 0).map (fun x => x.backup) = some (List.replicate 48 7) := by decide
    rw [h] at hb2
    simp only [Option.map_some', Option.some.injEq] at hb2
    have hb : s2.backup ≠ [] := by simp [hb2]
    simp [hth.1, hth.2 hb]

/-- C7 counterexample: with a clock_gettime callback provided, the
non-prefixed symbol name `clock_gettime` is present in the patch mapping, and
`mess_vdso` patches a symbol carrying only that non-prefixed name (the
memory changes), contradicting the claim that non-prefixed aliases are
ignored. -/
theorem claim_C7_counterexample :
    Lib.mapGet (Lib.curse_mapping true false false false 0x1234 0 0 0) n_clock_gettime =
      some 0x1234 ∧
    (Lib.mess_vdso (List.replicate 48 7) 0 sampleLibElf
        (Lib.curse_mapping true false false false 0x1234 0 0 0)).isSome = true ∧
    Lib.mess_vdso (List.replicate 48 7) 0 sampleLibElf
        (Lib.curse_mapping true false false false 0x1234 0 0 0) ≠
      some (List.replicate 48 7) := by
  decide

/-- C7 amended: for each provided callback, `curse_vdso` matches and patches
both the non-prefixed and the `__vdso_`-prefixed symbol name, mapping the two
names of a pair to the same trampoline address; names of absent callbacks are
not matched. -/
theorem claim_C7_amended (g t r go : Bool) (a1 a2 a3 a4 : Nat) :
    [n_clock_gettime, n_vdso_clock_gettime, n_time, n_vdso_time,
     n_clock_getres, n_vdso_clock_getres, n_gettimeofday, n_vdso_gettimeofday].map
      (Lib.mapGet (Lib.curse_mapping g t r go a1 a2 a3 a4)) =
    [if g then some a1 else none, if g then some a1 else none,
     if t then some a2 else none, if t then some a2 else none,
     if r then some a3 else none, if r then some a3 else none,
     if go then some a4 else none, if go then some a4 else none] := by
  cases g <;> cases t <;> cases r <;> cases go <;> rfl

/-- C8 counterexample: `my_clockgettime` invoked with an unset callback slot
and a null out-pointer does not panic — it returns 0 without ever reading the
slot. -/
theorem claim_C8_counterexample :
    Tramp.my_clockgettime none 0 true = Tramp.GetTimeOutcome.ok 0 none := rfl

/-- C8 amended: with an unset slot, `my_time` panics on every invocation, and
the pointer-output trampolines panic exactly when their out-pointer is
non-null; with a null out-pointer they skip the callback and return their
fixed status (0, or plain return for gettimeofday) without reading the slot. -/
theorem claim_C8_amended (c : Int) (b : Bool) :
    Tramp.my_time none b = Tramp.TimeOutcome.aborted ∧
    Tramp.my_clockgettime none c false = Tramp.GetTimeOutcome.aborted ∧
    Tramp.my_clockgetres none c false = Tramp.GetTimeOutcome.aborted ∧
    Tramp.my_gettimeofday none false = Tramp.GtodOutcome.aborted ∧
    Tramp.my_clockgettime none c true = Tramp.GetTimeOutcome.ok 0 none ∧
    Tramp.my_clockgetres none c true = Tramp.GetTimeOutcome.ok 0 none ∧
    Tramp.my_gettimeofday none true = Tramp.GtodOutcome.ok none :=
  ⟨rfl, rfl, rfl, rfl, rfl, rfl, rfl⟩

/-- C9 counterexample: a symbol with natural size 17 under `.text` alignment
16 has padded size 32, but the stub written by the `overwrite` free function
of `src/lib.rs` has length `max(16, 17) = 17`, not the padded size. -/
theorem claim_C9_counterexample :
    (Lib.overwritten_bytes 0x9abc 17).length = 17 ∧
    alignedSize 17 16 = 32 ∧ (17 : Nat) ≠ 32 := by
  decide

/-- C9 amended: the stub written by the `src/lib.rs` `overwrite` has length
`max(16, natural size)` — not the padded size in general — and for non-zero
natural sizes under `.text` alignment 16 this never extends past the padded
slot. -/
theorem claim_C9_amended (dst size : Nat) :
    (Lib.overwritten_bytes dst size).length = max 16 size ∧
    (0 < size → max 16 size ≤ alignedSize size 16) := by
  constructor
  · simp only [Lib.overwritten_bytes, List.length_append, List.length_cons,
      List.length_nil, List.length_replicate]
    omega
  · intro h
    unfold alignedSize
    by_cases h16 : size % 16 = 0 <;> simp only [h16, if_true, if_false] <;> omega

/-- Witness for the amended C9 at a concrete target and size. -/
theorem claim_C9_amended_witness :
    (Lib.overwritten_bytes 0x9abc 20).length = max 16 20 ∧
    max 16 20 ≤ alignedSize 20 16 :=
  ⟨(claim_C9_amended 0x9abc 20).1, (claim_C9_amended 0x9abc 20).2 (by decide)⟩
